import Mathlib

/-!
Verification of the `OptionalValue<T>` class declared in `src/common.d.ts`.

The class stores a single private field `value` and offers three static
factories (`of`, `ofNullable`, `empty`) and six instance methods (`get`,
`isPresent`, `ifPresent`, `orElse`, `orElseGet`, `orElseThrow`).

Modelling choices:
* A JavaScript runtime value of static type `T` that may also be the host
  values `null` or `undefined` is the sum type `JSVal T`.  The source
  distinguishes the two absent host values (it tests `value === null` and
  `value === undefined` separately, and `===` on `null` versus `undefined`
  is `false` in JavaScript), so the embedding keeps them distinct.
* A thrown `Error` is a `JSError`; a method that can throw returns
  `Except JSError _`.  Methods whose bodies contain no `throw` are plain
  total functions, which is the embedding of "never fails".
* Caller-supplied callbacks (`consumer`, `supplier`, the error factory)
  are JavaScript closures and may have side effects, so they are modelled
  as functions threading an arbitrary effect state `S`.  "The callback is
  invoked exactly once" is then expressed by the result state being the
  callback applied exactly once to the incoming state, for every choice of
  `S`, callback and state; "never invoked" by the state coming back
  unchanged.  Instantiating `S := Nat` with a callback that increments the
  state turns these equations into literal invocation counts.
-/

/-- A JavaScript value of static type `T` in a position where the host
values `null` and `undefined` can also occur.  `JSVal.val t` is the plain
value `t`; the runtime keeps `null` and `undefined` distinct. -/
inductive JSVal (T : Type) where
  | null : JSVal T
  | undefined : JSVal T
  | val : T → JSVal T
deriving DecidableEq

/-- The test `value === null || value === undefined` from the source
(the guard of `of`, and the negation of the body of `isPresent`).
For a plain value `JSVal.val t` both strict comparisons are `false`
whatever `t` is, so no equality on `T` is involved. -/
def JSVal.isAbsent {T : Type} : JSVal T → Bool
  | JSVal.null => true
  | JSVal.undefined => true
  | JSVal.val _ => false

/-- A JavaScript `Error`; the only part of it this code observes is the
message it was constructed with. -/
structure JSError where
  message : String
deriving DecidableEq

/-- The error thrown by `OptionalValue.of` on an absent argument:
`new Error("Value cannot be null or undefined")`.  This is the
`InvalidArgument` error kind of the specification. -/
def invalidArgument : JSError :=
  ⟨"Value cannot be null or undefined"⟩

/-- The class `OptionalValue<T>`: one private readonly field `value`.
The field is declared `Nullable<T> = T | null`, but at runtime
`ofNullable` stores whatever it was given, including `undefined`, so the
field is modelled as the full `JSVal T`. -/
structure OptionalValue (T : Type) where
  value : JSVal T
deriving DecidableEq

/-- `static of<T>(value)`: throws `Error("Value cannot be null or
undefined")` when `value === null || value === undefined`, otherwise
returns `new OptionalValue(value)`. -/
def OptionalValue.of {T : Type} (value : JSVal T) : Except JSError (OptionalValue T) :=
  if value.isAbsent then Except.error invalidArgument
  else Except.ok ⟨value⟩

/-- `static ofNullable<T>(value)`: returns `new OptionalValue(value)`
unconditionally. -/
def OptionalValue.ofNullable {T : Type} (value : JSVal T) : OptionalValue T :=
  ⟨value⟩

/-- `static empty<T>()`: returns `new OptionalValue<T>(null)`. -/
def OptionalValue.empty {T : Type} : OptionalValue T :=
  ⟨JSVal.null⟩

/-- `get()`: returns `this.value`. -/
def OptionalValue.get {T : Type} (o : OptionalValue T) : JSVal T :=
  o.value

/-- `isPresent()`: returns `this.value !== null && this.value !==
undefined`, that is the negation of `JSVal.isAbsent`. -/
def OptionalValue.isPresent {T : Type} (o : OptionalValue T) : Bool :=
  !o.value.isAbsent

/-- `ifPresent(consumer)`: `if (this.isPresent()) consumer(this.value as
T)`.  `isPresent` holds exactly when `value` is `JSVal.val t`, and the
erased cast `this.value as T` then denotes `t`; on the absent branches
nothing happens and the effect state comes back unchanged.  The method
returns `void`, so its whole observable outcome is the final state. -/
def OptionalValue.ifPresent {T S : Type} (o : OptionalValue T) (consumer : T → S → S)
    (s : S) : S :=
  match o.value with
  | JSVal.val t => consumer t s
  | JSVal.null => s
  | JSVal.undefined => s

/-- `orElse(other)`: `this.isPresent() ? this.value as T : other`. -/
def OptionalValue.orElse {T : Type} (o : OptionalValue T) (other : T) : T :=
  match o.value with
  | JSVal.val t => t
  | JSVal.null => other
  | JSVal.undefined => other

/-- `orElseGet(supplier)`: `this.isPresent() ? this.value as T :
supplier()`.  On the present branch the supplier is not applied and the
effect state is unchanged; on the absent branch the result is the
supplier applied exactly once to the incoming state. -/
def OptionalValue.orElseGet {T S : Type} (o : OptionalValue T) (supplier : S → T × S)
    (s : S) : T × S :=
  match o.value with
  | JSVal.val t => (t, s)
  | JSVal.null => supplier s
  | JSVal.undefined => supplier s

/-- `orElseThrow(error)`: returns `this.value as T` when present,
otherwise throws the error produced by one call of the factory. -/
def OptionalValue.orElseThrow {T S : Type} (o : OptionalValue T)
    (error : S → JSError × S) (s : S) : Except JSError T × S :=
  match o.value with
  | JSVal.val t => (Except.ok t, s)
  | JSVal.null => (Except.error (error s).1, (error s).2)
  | JSVal.undefined => (Except.error (error s).1, (error s).2)

/-- Claim C1: `of(value)` fails with the `InvalidArgument` error exactly
when the input is absent (`null` or `undefined`); for every non-absent
input it returns an instance that is present and whose `get()` is the
input itself. -/
theorem of_spec (T : Type) (v : JSVal T) :
    (OptionalValue.of v = Except.error invalidArgument ↔ v.isAbsent = true) ∧
    (v.isAbsent = false →
      ∃ o : OptionalValue T, OptionalValue.of v = Except.ok o ∧
        o.isPresent = true ∧ o.get = v) := by
  cases v with
  | null =>
      exact ⟨by simp [OptionalValue.of, JSVal.isAbsent], by simp [JSVal.isAbsent]⟩
  | undefined =>
      exact ⟨by simp [OptionalValue.of, JSVal.isAbsent], by simp [JSVal.isAbsent]⟩
  | val t =>
      refine ⟨by simp [OptionalValue.of, JSVal.isAbsent], fun _ => ⟨⟨JSVal.val t⟩, ?_, rfl, rfl⟩⟩
      simp [OptionalValue.of, JSVal.isAbsent]

/-- Witness for C1: `of(3)` succeeds with a present instance holding `3`
(the `v.isAbsent = false` hypothesis discharged at the concrete input). -/
theorem of_spec_witness :
    ∃ o : OptionalValue Nat, OptionalValue.of (JSVal.val 3) = Except.ok o ∧
      o.isPresent = true ∧ o.get = JSVal.val 3 :=
  (of_spec Nat (JSVal.val 3)).2 rfl

/-- Claim C2: `ofNullable(v)` never fails (it is a plain total function
in the embedding, with no error result type) and the instance it returns
is present exactly when `v` is not absent. -/
theorem ofNullable_spec (T : Type) (v : JSVal T) :
    (OptionalValue.ofNullable v).isPresent = !v.isAbsent := by
  cases v <;> rfl

/-- Claim C3: `empty()` never fails (plain total function) and returns an
absent instance whose `get()` is the absence marker stored by `empty`,
namely `null`. -/
theorem empty_spec (T : Type) :
    (OptionalValue.empty : OptionalValue T).isPresent = false ∧
    (OptionalValue.empty : OptionalValue T).get = JSVal.null :=
  ⟨rfl, rfl⟩

/-- Claim C4, evaluated at the failing input: `ofNullable(undefined)`
stores `undefined`, so its `get()` returns `undefined`, while
`ofNullable(null).get()` and `empty().get()` return `null`, and `null`
and `undefined` are distinct host values (`null === undefined` is false).
So `get()` on an absent instance does not return one single placeholder
independent of how the instance was constructed, although the declared
field type `Nullable<T> = T | null` and the doc comment of `get` (which
says: otherwise null) promise exactly that. -/
theorem get_absent_not_single_marker :
    (OptionalValue.ofNullable (JSVal.undefined : JSVal Nat)).get = JSVal.undefined ∧
    (OptionalValue.ofNullable (JSVal.null : JSVal Nat)).get = JSVal.null ∧
    (OptionalValue.empty : OptionalValue Nat).get = JSVal.null ∧
    (JSVal.undefined : JSVal Nat) ≠ JSVal.null := by
  refine ⟨rfl, rfl, rfl, ?_⟩
  decide

/-- Claim C5: `orElse` never fails (plain total function); on a present
instance holding `t` it returns `t`, which is exactly the value `get()`
returns, ignoring the fallback; on an absent instance it returns the
fallback unchanged. -/
theorem orElse_spec (T : Type) (o : OptionalValue T) (fallback : T) :
    (∀ t : T, o.get = JSVal.val t → o.orElse fallback = t) ∧
    (o.isPresent = false → o.orElse fallback = fallback) := by
  rcases o with ⟨v⟩
  cases v with
  | null =>
      exact ⟨(fun t h => by cases h), fun _ => rfl⟩
  | undefined =>
      exact ⟨(fun t h => by cases h), fun _ => rfl⟩
  | val t =>
      refine ⟨fun u h => ?_, fun h => by cases h⟩
      cases h
      rfl

/-- Witness for C5: the present case at `ofNullable(5)` with fallback
`42` gives `5`, the absent case at `empty` gives the fallback `42`. -/
theorem orElse_spec_witness :
    (OptionalValue.ofNullable (JSVal.val (5 : Nat))).orElse 42 = 5 ∧
    (OptionalValue.empty : OptionalValue Nat).orElse 42 = 42 :=
  ⟨(orElse_spec Nat (OptionalValue.ofNullable (JSVal.val 5)) 42).1 5 rfl,
   (orElse_spec Nat OptionalValue.empty 42).2 rfl⟩

/-- Claim C6: on a present instance holding `t`, `orElseGet` returns `t`
with the effect state unchanged, so the supplier is never invoked; on an
absent instance the result is the supplier applied exactly once to the
incoming state. -/
theorem orElseGet_spec (T S : Type) (o : OptionalValue T) (supplier : S → T × S)
    (s : S) :
    (∀ t : T, o.get = JSVal.val t → o.orElseGet supplier s = (t, s)) ∧
    (o.isPresent = false → o.orElseGet supplier s = supplier s) := by
  rcases o with ⟨v⟩
  cases v with
  | null =>
      exact ⟨(fun t h => by cases h), fun _ => rfl⟩
  | undefined =>
      exact ⟨(fun t h => by cases h), fun _ => rfl⟩
  | val t =>
      refine ⟨fun u h => ?_, fun h => by cases h⟩
      cases h
      rfl

/-- Witness for C6, with an invocation-counting supplier over state
`Nat`: on the present instance the count stays `0`, on the absent
instance the supplier runs once and the count becomes `1`. -/
theorem orElseGet_spec_witness :
    (OptionalValue.ofNullable (JSVal.val (5 : Nat))).orElseGet
      (fun n : Nat => (7, n + 1)) 0 = (5, 0) ∧
    (OptionalValue.empty : OptionalValue Nat).orElseGet
      (fun n : Nat => (7, n + 1)) 0 = (7, 1) :=
  ⟨(orElseGet_spec Nat Nat (OptionalValue.ofNullable (JSVal.val 5))
      (fun n => (7, n + 1)) 0).1 5 rfl,
   (orElseGet_spec Nat Nat OptionalValue.empty (fun n => (7, n + 1)) 0).2 rfl⟩

/-- Claim C7: on a present instance holding `t`, `orElseThrow` returns
`t` with the effect state unchanged, so the factory is never invoked; on
an absent instance the factory runs exactly once and the call fails with
precisely the error the factory produced, which is the propagated
result. -/
theorem orElseThrow_spec (T S : Type) (o : OptionalValue T)
    (error : S → JSError × S) (s : S) :
    (∀ t : T, o.get = JSVal.val t → o.orElseThrow error s = (Except.ok t, s)) ∧
    (o.isPresent = false →
      o.orElseThrow error s = (Except.error (error s).1, (error s).2)) := by
  rcases o with ⟨v⟩
  cases v with
  | null =>
      exact ⟨(fun t h => by cases h), fun _ => rfl⟩
  | undefined =>
      exact ⟨(fun t h => by cases h), fun _ => rfl⟩
  | val t =>
      refine ⟨fun u h => ?_, fun h => by cases h⟩
      cases h
      rfl

/-- Witness for C7, with a counting factory: the present case returns
`5` leaving the count at `0`; the absent case fails with the error
message `missing` and the count becomes `1`. -/
theorem orElseThrow_spec_witness :
    (OptionalValue.ofNullable (JSVal.val (5 : Nat))).orElseThrow
      (fun n : Nat => (⟨"missing"⟩, n + 1)) 0 = (Except.ok 5, 0) ∧
    (OptionalValue.empty : OptionalValue Nat).orElseThrow
      (fun n : Nat => (⟨"missing"⟩, n + 1)) 0 = (Except.error ⟨"missing"⟩, 1) :=
  ⟨(orElseThrow_spec Nat Nat (OptionalValue.ofNullable (JSVal.val 5))
      (fun n => (⟨"missing"⟩, n + 1)) 0).1 5 rfl,
   (orElseThrow_spec Nat Nat OptionalValue.empty
      (fun n => (⟨"missing"⟩, n + 1)) 0).2 rfl⟩

/-- Claim C8: on a present instance holding `t`, `ifPresent` applies the
consumer exactly once to `t` and the incoming state; on an absent
instance it returns the state unchanged, so the consumer is invoked zero
times; the method returns no value, only the effect state. -/
theorem ifPresent_spec (T S : Type) (o : OptionalValue T) (consumer : T → S → S)
    (s : S) :
    (∀ t : T, o.get = JSVal.val t → o.ifPresent consumer s = consumer t s) ∧
    (o.isPresent = false → o.ifPresent consumer s = s) := by
  rcases o with ⟨v⟩
  cases v with
  | null =>
      exact ⟨(fun t h => by cases h), fun _ => rfl⟩
  | undefined =>
      exact ⟨(fun t h => by cases h), fun _ => rfl⟩
  | val t =>
      refine ⟨fun u h => ?_, fun h => by cases h⟩
      cases h
      rfl

/-- Witness for C8, with a consumer recording its arguments in a list:
on the present instance it is called once with the wrapped value `5`, on
the absent instance the record stays empty. -/
theorem ifPresent_spec_witness :
    (OptionalValue.ofNullable (JSVal.val (5 : Nat))).ifPresent
      (fun t (l : List Nat) => l ++ [t]) [] = [5] ∧
    (OptionalValue.empty : OptionalValue Nat).ifPresent
      (fun t (l : List Nat) => l ++ [t]) [] = [] :=
  ⟨(ifPresent_spec Nat (List Nat) (OptionalValue.ofNullable (JSVal.val 5))
      (fun t l => l ++ [t]) []).1 5 rfl,
   (ifPresent_spec Nat (List Nat) OptionalValue.empty
      (fun t l => l ++ [t]) []).2 rfl⟩

/-- Claim C9: the failure paths are exactly two.  `of` fails, and then
with the `InvalidArgument` error, precisely on absent inputs;
`orElseThrow` fails, and then with the error produced by one invocation
of the caller-supplied factory, precisely on absent instances.  The
remaining operations (`ofNullable`, `empty`, `get`, `isPresent`,
`ifPresent`, `orElse`, `orElseGet`) never fail: their bodies contain no
`throw`, which the embedding expresses by giving them plain result types
with no `Except` error component. -/
theorem failure_semantics (T S : Type) (v : JSVal T) (o : OptionalValue T)
    (error : S → JSError × S) (s : S) :
    ((∃ e : JSError, OptionalValue.of v = Except.error e) ↔ v.isAbsent = true) ∧
    ((∃ e : JSError, (o.orElseThrow error s).1 = Except.error e) ↔
      o.isPresent = false) ∧
    (∀ e : JSError, (o.orElseThrow error s).1 = Except.error e → e = (error s).1) := by
  refine ⟨?_, ?_, ?_⟩
  · cases v <;>
      simp [OptionalValue.of, JSVal.isAbsent, invalidArgument]
  · rcases o with ⟨w⟩
    cases w <;>
      simp [OptionalValue.orElseThrow, OptionalValue.isPresent, JSVal.isAbsent]
  · rcases o with ⟨w⟩
    intro e h
    cases w with
    | null => cases h; rfl
    | undefined => cases h; rfl
    | val t => cases h

/-- Witness for C9: at the absent instance `empty` with a concrete
factory, `orElseThrow` does fail and the error is the one the factory
produced (the `∀ e, _ → _` part discharged at the concrete error). -/
theorem failure_semantics_witness :
    ∃ e : JSError,
      ((OptionalValue.empty : OptionalValue Nat).orElseThrow
        (fun n : Nat => (⟨"boom"⟩, n + 1)) 0).1 = Except.error e ∧
      e = ⟨"boom"⟩ :=
  ⟨⟨"boom"⟩, rfl,
   (failure_semantics Nat Nat (JSVal.null) OptionalValue.empty
      (fun n => (⟨"boom"⟩, n + 1)) 0).2.2 ⟨"boom"⟩ rfl⟩

/-- Claim C10: for every non-absent value, that is every `JSVal.val t`,
the instance `of` returns is the very same instance `ofNullable`
returns, so `get`, `isPresent`, `ifPresent`, `orElse`, `orElseGet` and
`orElseThrow` agree on the two, for every fallback, callback and effect
state. -/
theorem ofNullable_refines_of (T S : Type) (t : T) (fallback : T)
    (consumer : T → S → S) (supplier : S → T × S) (error : S → JSError × S)
    (s : S) :
    ∃ o : OptionalValue T, OptionalValue.of (JSVal.val t) = Except.ok o ∧
      o.get = (OptionalValue.ofNullable (JSVal.val t)).get ∧
      o.isPresent = (OptionalValue.ofNullable (JSVal.val t)).isPresent ∧
      o.ifPresent consumer s = (OptionalValue.ofNullable (JSVal.val t)).ifPresent consumer s ∧
      o.orElse fallback = (OptionalValue.ofNullable (JSVal.val t)).orElse fallback ∧
      o.orElseGet supplier s = (OptionalValue.ofNullable (JSVal.val t)).orElseGet supplier s ∧
      o.orElseThrow error s = (OptionalValue.ofNullable (JSVal.val t)).orElseThrow error s :=
  ⟨OptionalValue.ofNullable (JSVal.val t), rfl, rfl, rfl, rfl, rfl, rfl, rfl⟩
